import Mathlib

/-!
Shallow embedding of `astrbot/core/provider/sources/custom_tts_source.py`
(the `ProviderCustomTTS` adapter): construction from a provider-config
mapping, the `get_audio` synthesis operation and the `test_connection`
probe, with the network outcome and the filesystem made explicit.
-/

namespace CustomTTS

/-- Python `s.strip()`: the string with leading and trailing whitespace
characters removed. Python strings are sequences of code points, modelled
through `String.data`. -/
def pyStrip (s : String) : String :=
  String.mk ((s.data.dropWhile Char.isWhitespace).reverse.dropWhile Char.isWhitespace).reverse

/-- Python `s.endswith("/")`: the last character of the string is `'/'`. -/
def pyEndsWithSlash (s : String) : Bool := s.data.getLast? == some '/'

/-- Python `s[:-1]`: the string without its last character. -/
def pyDropLastChar (s : String) : String := String.mk s.data.dropLast

/-- The provider-config mapping handed to `__init__`: each key is optional,
`provider_config.get(key, default)` supplies the default. -/
structure ProviderConfig where
  api_base : Option String
  api_key : Option String
  timeout : Option Nat
  role : Option String
  emotion : Option String
  speed : Option ℚ
  model : Option String
deriving DecidableEq

/-- The adapter state after `__init__`: normalized base URL, key, timeout,
voice parameters, the request-header association list and the model name. -/
structure Config where
  api_base : String
  api_key : String
  timeout : Nat
  role : String
  emotion : String
  speed : ℚ
  headers : List (String × String)
  model : String
deriving DecidableEq

/-- Header construction from `__init__`: `Content-Type` and `User-Agent`
always, `Authorization: Bearer <key>` appended only when the key is truthy
(a non-empty string). -/
def mkHeaders (api_key : String) : List (String × String) :=
  let base := [("Content-Type", "application/json"),
               ("User-Agent", "AstrBot-CustomTTS/1.0")]
  if api_key = "" then base else base ++ [("Authorization", "Bearer " ++ api_key)]

/-- Constructor `ProviderCustomTTS.__init__`: read each config key with its default,
strip one trailing slash from `api_base`, build the headers once. -/
def initProvider (pc : ProviderConfig) : Config :=
  let api_base0 := pc.api_base.getD "http://127.0.0.1:50042"
  let api_base := if pyEndsWithSlash api_base0 then pyDropLastChar api_base0 else api_base0
  let api_key := pc.api_key.getD ""
  { api_base := api_base
    api_key := api_key
    timeout := pc.timeout.getD 30
    role := pc.role.getD "缪尔赛斯"
    emotion := pc.emotion.getD "平常"
    speed := pc.speed.getD 1
    headers := mkHeaders api_key
    model := pc.model.getD "custom_tts" }

/-- The JSON body of the POST to `/get_role_music`. -/
structure RequestData where
  role : String
  emotion : String
  content : String
  speed : ℚ
deriving DecidableEq

/-- One attempted `session.post`: URL, JSON payload, headers, total timeout. -/
structure PostCall where
  url : String
  payload : RequestData
  headers : List (String × String)
  timeoutSec : Nat
deriving DecidableEq

/-- Outcome of the single HTTP POST, decided by the environment: a response
with a status, a binary body (read on 200) and a text body (read otherwise),
or one of the exception classes the code catches. -/
inductive NetOutcome where
  | response (status : Nat) (bodyBytes : List Nat) (bodyText : String)
  | clientError (cause : String)
  | timeoutError
  | otherError (cause : String)
deriving DecidableEq

/-- Python exceptions the code raises or handles: `ValueError`,
`RuntimeError`, `aiohttp.ClientError`, `asyncio.TimeoutError`, and any
other `Exception`. -/
inductive PyExc where
  | valueError (msg : String)
  | runtimeError (msg : String)
  | clientError (msg : String)
  | timeoutError
  | otherExc (msg : String)
deriving DecidableEq

/-- Python `str(e)` on the exceptions above (`str` of a bare
`asyncio.TimeoutError()` is the empty string). -/
def PyExc.str : PyExc → String
  | .valueError m => m
  | .runtimeError m => m
  | .clientError m => m
  | .timeoutError => ""
  | .otherExc m => m

/-- The `except` chain of `get_audio`, applied to any exception escaping the
`try` body, in source order: `aiohttp.ClientError` first, then
`asyncio.TimeoutError`, then the catch-all `except Exception` (which also
re-wraps the `RuntimeError`s raised inside the `try` body itself). -/
def exceptChain : PyExc → PyExc
  | .clientError e => .runtimeError ("[Custom TTS] 网络请求失败: " ++ e)
  | .timeoutError => .runtimeError "[Custom TTS] 请求超时"
  | e => .runtimeError ("[Custom TTS] 未知错误: " ++ e.str)

/-- The filesystem: an association list from path to file bytes. -/
abbrev FS := List (String × List Nat)

/-- Python `open(p, "wb"); f.write(b)`: the file at `p` now holds exactly `b`. -/
def fsWrite (fs : FS) (p : String) (b : List Nat) : FS := (p, b) :: fs

/-- Read the bytes of the file at `p`, if it exists. -/
def fsRead (fs : FS) (p : String) : Option (List Nat) := fs.lookup p

/-- Python `os.path.exists(p)`. -/
def fsExistsFile (fs : FS) (p : String) : Bool := (fsRead fs p).isSome

/-- Python `os.path.getsize(p)` (0 when the file does not exist). -/
def fsGetSize (fs : FS) (p : String) : Nat := ((fsRead fs p).getD []).length

/-- The per-call environment: the filesystem before the call, the host data
path, the fresh `uuid.uuid4().hex` value, and the network outcome. -/
structure Env where
  fs : FS
  dataPath : String
  uuidHex : String
  net : NetOutcome
deriving DecidableEq

/-- Observable outcome of one `get_audio` call: the returned path or raised
exception, the filesystem afterwards, the POSTs attempted and the
`os.makedirs` calls made. -/
structure GetAudioResult where
  result : Except PyExc String
  fs : FS
  netCalls : List PostCall
  mkdirCalls : List String

/-- Operation `ProviderCustomTTS.get_audio`: reject blank text before any I/O; else
create the temp dir, compute the `.wav` destination path, POST once to
`<api_base>/get_role_music`; on 200 write the body bytes and verify the
file is present and non-empty; on any other status raise with the status
and body text; exceptions pass through the `except` chain. -/
def get_audio (cfg : Config) (env : Env) (text : String) : GetAudioResult :=
  if pyStrip text = "" then
    { result := Except.error (PyExc.valueError "[Custom TTS] TTS文本不能为空")
      fs := env.fs
      netCalls := []
      mkdirCalls := [] }
  else
    let temp_dir := env.dataPath ++ "/temp"
    let audio_path := temp_dir ++ "/custom_tts_" ++ env.uuidHex ++ ".wav"
    let request_data : RequestData :=
      { role := cfg.role, emotion := cfg.emotion, content := text, speed := cfg.speed }
    let endpoint := cfg.api_base ++ "/get_role_music"
    let call : PostCall :=
      { url := endpoint, payload := request_data, headers := cfg.headers,
        timeoutSec := cfg.timeout }
    match env.net with
    | NetOutcome.response status bodyBytes bodyText =>
        if status = 200 then
          let fs2 := fsWrite env.fs audio_path bodyBytes
          if fsExistsFile fs2 audio_path ∧ 0 < fsGetSize fs2 audio_path then
            { result := Except.ok audio_path
              fs := fs2
              netCalls := [call]
              mkdirCalls := [temp_dir] }
          else
            { result := Except.error
                (exceptChain (PyExc.runtimeError "[Custom TTS] 生成的音频文件为空或不存在"))
              fs := fs2
              netCalls := [call]
              mkdirCalls := [temp_dir] }
        else
          { result := Except.error
              (exceptChain (PyExc.runtimeError
                ("[Custom TTS] API请求失败: " ++ toString status ++ " - " ++ bodyText)))
            fs := env.fs
            netCalls := [call]
            mkdirCalls := [temp_dir] }
    | NetOutcome.clientError e =>
        { result := Except.error (exceptChain (PyExc.clientError e))
          fs := env.fs
          netCalls := [call]
          mkdirCalls := [temp_dir] }
    | NetOutcome.timeoutError =>
        { result := Except.error (exceptChain PyExc.timeoutError)
          fs := env.fs
          netCalls := [call]
          mkdirCalls := [temp_dir] }
    | NetOutcome.otherError e =>
        { result := Except.error (exceptChain (PyExc.otherExc e))
          fs := env.fs
          netCalls := [call]
          mkdirCalls := [temp_dir] }

/-- Observable outcome of one `test_connection` call. -/
structure TestConnResult where
  ok : Bool
  netCalls : List PostCall
deriving DecidableEq

/-- Operation `ProviderCustomTTS.test_connection`: POST the fixed probe payload with a
10-second timeout; return whether the status is 200, 400 or 422; any
exception is caught and yields `false`. -/
def test_connection (cfg : Config) (net : NetOutcome) : TestConnResult :=
  let endpoint := cfg.api_base ++ "/get_role_music"
  let test_data : RequestData :=
    { role := cfg.role, emotion := cfg.emotion, content := "测试", speed := 1 }
  let call : PostCall :=
    { url := endpoint, payload := test_data, headers := cfg.headers, timeoutSec := 10 }
  match net with
  | NetOutcome.response status _ _ =>
      { ok := status == 200 || status == 400 || status == 422, netCalls := [call] }
  | NetOutcome.clientError _ => { ok := false, netCalls := [call] }
  | NetOutcome.timeoutError => { ok := false, netCalls := [call] }
  | NetOutcome.otherError _ => { ok := false, netCalls := [call] }


end CustomTTS


namespace CustomTTS

/-- Claim C2: for text that is blank after stripping, `get_audio` raises
`ValueError` with the empty-text message and attempts no network call. -/
theorem get_audio_empty_text_invalid (cfg : Config) (env : Env) (text : String)
    (h : pyStrip text = "") :
    (get_audio cfg env text).result =
        Except.error (PyExc.valueError "[Custom TTS] TTS文本不能为空") ∧
      (get_audio cfg env text).netCalls = [] := by
  simp [get_audio, h]

theorem get_audio_empty_text_invalid_witness :
    pyStrip " \t\n" = "" ∧
      ((get_audio (initProvider ⟨none, none, none, none, none, none, none⟩)
            ⟨[], "/data", "abcd", NetOutcome.timeoutError⟩ " \t\n").result =
          Except.error (PyExc.valueError "[Custom TTS] TTS文本不能为空") ∧
        (get_audio (initProvider ⟨none, none, none, none, none, none, none⟩)
            ⟨[], "/data", "abcd", NetOutcome.timeoutError⟩ " \t\n").netCalls = []) :=
  ⟨by decide, get_audio_empty_text_invalid _ _ _ (by decide)⟩

/-- Claim C9: for blank text the filesystem is untouched: no directory is
created, no file is written, and no network call is made. -/
theorem get_audio_empty_text_no_fs_effects (cfg : Config) (env : Env) (text : String)
    (h : pyStrip text = "") :
    (get_audio cfg env text).fs = env.fs ∧
      (get_audio cfg env text).mkdirCalls = [] ∧
      (get_audio cfg env text).netCalls = [] := by
  simp [get_audio, h]

theorem get_audio_empty_text_no_fs_effects_witness :
    pyStrip "   " = "" ∧
      ((get_audio (initProvider ⟨none, none, none, none, none, none, none⟩)
            ⟨[("/f", [1])], "/data", "abcd", NetOutcome.timeoutError⟩ "   ").fs =
          [("/f", [1])] ∧
        (get_audio (initProvider ⟨none, none, none, none, none, none, none⟩)
            ⟨[("/f", [1])], "/data", "abcd", NetOutcome.timeoutError⟩ "   ").mkdirCalls = [] ∧
        (get_audio (initProvider ⟨none, none, none, none, none, none, none⟩)
            ⟨[("/f", [1])], "/data", "abcd", NetOutcome.timeoutError⟩ "   ").netCalls = []) :=
  ⟨by decide, get_audio_empty_text_no_fs_effects _ _ _ (by decide)⟩

/-- Claim C1: on a 200 response with non-empty body and non-blank text,
`get_audio` returns a path ending in `.wav`; the file at that path exists,
is non-empty, and holds exactly the response body bytes. -/
theorem get_audio_success_contract (cfg : Config) (fs : FS)
    (dp hex btext text : String) (body : List Nat)
    (ht : pyStrip text ≠ "") (hb : body ≠ []) :
    ∃ p,
      (get_audio cfg ⟨fs, dp, hex, NetOutcome.response 200 body btext⟩ text).result =
          Except.ok p ∧
        ".wav".data <:+ p.data ∧
        fsRead (get_audio cfg ⟨fs, dp, hex, NetOutcome.response 200 body btext⟩ text).fs p =
          some body ∧
        fsExistsFile (get_audio cfg ⟨fs, dp, hex, NetOutcome.response 200 body btext⟩ text).fs p =
          true ∧
        0 < fsGetSize (get_audio cfg ⟨fs, dp, hex, NetOutcome.response 200 body btext⟩ text).fs p := by
  have hp : 0 < body.length := List.length_pos.mpr hb
  refine ⟨dp ++ "/temp" ++ "/custom_tts_" ++ hex ++ ".wav", ?_, ?_, ?_, ?_, ?_⟩
  · simp [get_audio, ht, fsExistsFile, fsRead, fsWrite, fsGetSize, List.lookup, hp]
  · rw [String.data_append]
    exact List.suffix_append _ _
  · simp [get_audio, ht, fsExistsFile, fsRead, fsWrite, fsGetSize, List.lookup, hp]
  · simp [get_audio, ht, fsExistsFile, fsRead, fsWrite, fsGetSize, List.lookup, hp]
  · simp [get_audio, ht, fsExistsFile, fsRead, fsWrite, fsGetSize, List.lookup, hp]

theorem get_audio_success_contract_witness :
    (pyStrip "hi" ≠ "" ∧ ([7, 8] : List Nat) ≠ []) ∧
      ∃ p,
        (get_audio (initProvider ⟨none, none, none, none, none, none, none⟩)
              ⟨[], "/data", "abcd", NetOutcome.response 200 [7, 8] ""⟩ "hi").result =
            Except.ok p ∧
          ".wav".data <:+ p.data ∧
          fsRead (get_audio (initProvider ⟨none, none, none, none, none, none, none⟩)
              ⟨[], "/data", "abcd", NetOutcome.response 200 [7, 8] ""⟩ "hi").fs p =
            some [7, 8] ∧
          fsExistsFile (get_audio (initProvider ⟨none, none, none, none, none, none, none⟩)
              ⟨[], "/data", "abcd", NetOutcome.response 200 [7, 8] ""⟩ "hi").fs p = true ∧
          0 < fsGetSize (get_audio (initProvider ⟨none, none, none, none, none, none, none⟩)
              ⟨[], "/data", "abcd", NetOutcome.response 200 [7, 8] ""⟩ "hi").fs p :=
  ⟨⟨by decide, by decide⟩,
    get_audio_success_contract _ _ _ _ _ _ _ (by decide) (by decide)⟩

/-- Claim C3: on any non-200 status, `get_audio` raises a `RuntimeError`
whose message carries the exact status code and the body text read from the
response (the intentional rejection message is additionally re-wrapped by
the catch-all handler with the unknown-error label). -/
theorem get_audio_non200_carries_status_body (cfg : Config) (fs : FS)
    (dp hex bodyText text : String) (body : List Nat) (status : Nat)
    (ht : pyStrip text ≠ "") (hs : status ≠ 200) :
    (get_audio cfg ⟨fs, dp, hex, NetOutcome.response status body bodyText⟩ text).result =
      Except.error (PyExc.runtimeError
        ("[Custom TTS] 未知错误: " ++
          ("[Custom TTS] API请求失败: " ++ toString status ++ " - " ++ bodyText))) := by
  simp [get_audio, exceptChain, PyExc.str, ht, hs]

theorem get_audio_non200_carries_status_body_witness :
    (pyStrip "hi" ≠ "" ∧ (404 : Nat) ≠ 200) ∧
      (get_audio (initProvider ⟨none, none, none, none, none, none, none⟩)
          ⟨[], "/data", "abcd", NetOutcome.response 404 [] "not found"⟩ "hi").result =
        Except.error (PyExc.runtimeError
          ("[Custom TTS] 未知错误: " ++
            ("[Custom TTS] API请求失败: " ++ toString (404 : Nat) ++ " - " ++ "not found"))) :=
  ⟨⟨by decide, by decide⟩,
    get_audio_non200_carries_status_body _ _ _ _ _ _ _ _ (by decide) (by decide)⟩

/-- Claim C5: on a 200 response with empty body, `get_audio` raises (the
empty-file `RuntimeError`, re-wrapped by the catch-all handler) rather than
returning a path, and the destination file is left existing but empty. -/
theorem get_audio_empty_body_fails (cfg : Config) (fs : FS) (dp hex btext text : String)
    (ht : pyStrip text ≠ "") :
    (get_audio cfg ⟨fs, dp, hex, NetOutcome.response 200 [] btext⟩ text).result =
        Except.error (PyExc.runtimeError
          ("[Custom TTS] 未知错误: " ++ "[Custom TTS] 生成的音频文件为空或不存在")) ∧
      fsRead (get_audio cfg ⟨fs, dp, hex, NetOutcome.response 200 [] btext⟩ text).fs
          (dp ++ "/temp" ++ "/custom_tts_" ++ hex ++ ".wav") = some [] ∧
      fsGetSize (get_audio cfg ⟨fs, dp, hex, NetOutcome.response 200 [] btext⟩ text).fs
          (dp ++ "/temp" ++ "/custom_tts_" ++ hex ++ ".wav") = 0 := by
  simp [get_audio, exceptChain, PyExc.str, ht, fsWrite, fsRead, fsExistsFile, fsGetSize,
    List.lookup]

theorem get_audio_empty_body_fails_witness :
    pyStrip "hi" ≠ "" ∧
      ((get_audio (initProvider ⟨none, none, none, none, none, none, none⟩)
            ⟨[], "/data", "abcd", NetOutcome.response 200 [] ""⟩ "hi").result =
          Except.error (PyExc.runtimeError
            ("[Custom TTS] 未知错误: " ++ "[Custom TTS] 生成的音频文件为空或不存在")) ∧
        fsRead (get_audio (initProvider ⟨none, none, none, none, none, none, none⟩)
              ⟨[], "/data", "abcd", NetOutcome.response 200 [] ""⟩ "hi").fs
            ("/data" ++ "/temp" ++ "/custom_tts_" ++ "abcd" ++ ".wav") = some [] ∧
        fsGetSize (get_audio (initProvider ⟨none, none, none, none, none, none, none⟩)
              ⟨[], "/data", "abcd", NetOutcome.response 200 [] ""⟩ "hi").fs
            ("/data" ++ "/temp" ++ "/custom_tts_" ++ "abcd" ++ ".wav") = 0) :=
  ⟨by decide, get_audio_empty_body_fails _ _ _ _ _ _ (by decide)⟩

/-- Claim C6: a timeout raises the fixed timeout message and a transport
failure raises the network-failure message with the cause appended; the two
raised errors are never equal, whatever the transport cause. -/
theorem get_audio_timeout_distinct_from_network (cfg : Config) (fs : FS)
    (dp hex text cause : String) (ht : pyStrip text ≠ "") :
    (get_audio cfg ⟨fs, dp, hex, NetOutcome.timeoutError⟩ text).result =
        Except.error (PyExc.runtimeError "[Custom TTS] 请求超时") ∧
      (get_audio cfg ⟨fs, dp, hex, NetOutcome.clientError cause⟩ text).result =
        Except.error (PyExc.runtimeError ("[Custom TTS] 网络请求失败: " ++ cause)) ∧
      (get_audio cfg ⟨fs, dp, hex, NetOutcome.timeoutError⟩ text).result ≠
        (get_audio cfg ⟨fs, dp, hex, NetOutcome.clientError cause⟩ text).result := by
  have e1 : (get_audio cfg ⟨fs, dp, hex, NetOutcome.timeoutError⟩ text).result =
      Except.error (PyExc.runtimeError "[Custom TTS] 请求超时") := by
    simp [get_audio, exceptChain, ht]
  have e2 : (get_audio cfg ⟨fs, dp, hex, NetOutcome.clientError cause⟩ text).result =
      Except.error (PyExc.runtimeError ("[Custom TTS] 网络请求失败: " ++ cause)) := by
    simp [get_audio, exceptChain, ht]
  refine ⟨e1, e2, ?_⟩
  rw [e1, e2]
  intro h
  simp only [Except.error.injEq, PyExc.runtimeError.injEq] at h
  have hlen := congrArg String.length h
  rw [String.length_append] at hlen
  have h1 : ("[Custom TTS] 请求超时").length = 17 := rfl
  have h2 : ("[Custom TTS] 网络请求失败: ").length = 21 := rfl
  omega

theorem get_audio_timeout_distinct_from_network_witness :
    pyStrip "hi" ≠ "" ∧
      ((get_audio (initProvider ⟨none, none, none, none, none, none, none⟩)
            ⟨[], "/data", "abcd", NetOutcome.timeoutError⟩ "hi").result =
          Except.error (PyExc.runtimeError "[Custom TTS] 请求超时") ∧
        (get_audio (initProvider ⟨none, none, none, none, none, none, none⟩)
            ⟨[], "/data", "abcd", NetOutcome.clientError "conn refused"⟩ "hi").result =
          Except.error (PyExc.runtimeError ("[Custom TTS] 网络请求失败: " ++ "conn refused")) ∧
        (get_audio (initProvider ⟨none, none, none, none, none, none, none⟩)
            ⟨[], "/data", "abcd", NetOutcome.timeoutError⟩ "hi").result ≠
          (get_audio (initProvider ⟨none, none, none, none, none, none, none⟩)
              ⟨[], "/data", "abcd", NetOutcome.clientError "conn refused"⟩ "hi").result) :=
  ⟨by decide, get_audio_timeout_distinct_from_network _ _ _ _ _ _ (by decide)⟩

/-- Claim C4: `test_connection` returns `true` exactly when the probe
receives a response with status 200, 400 or 422; every other status and
every exception outcome yields `false` (the operation is total: it never
propagates an error). -/
theorem test_connection_reachable_iff (cfg : Config) (net : NetOutcome) :
    (test_connection cfg net).ok = true ↔
      ∃ status body btext, net = NetOutcome.response status body btext ∧
        (status = 200 ∨ status = 400 ∨ status = 422) := by
  cases net with
  | response status body btext =>
      simp only [test_connection, Bool.or_eq_true, beq_iff_eq]
      constructor
      · intro h
        exact ⟨status, body, btext, rfl, or_assoc.mp h⟩
      · rintro ⟨s, b, bt, heq, hs⟩
        cases heq
        exact or_assoc.mpr hs
  | clientError c => simp [test_connection]
  | timeoutError => simp [test_connection]
  | otherError c => simp [test_connection]


/-- Claim C7 counterexample: with `api_base` configured as `"http://x//"`,
construction strips only one slash, the stored base still ends in `/`, and
the constructed endpoint contains a double slash at the seam. -/
theorem api_base_trailing_slash_counterexample :
    (initProvider ⟨some "http://x//", none, none, none, none, none, none⟩).api_base =
        "http://x/" ∧
      pyEndsWithSlash
        (initProvider ⟨some "http://x//", none, none, none, none, none, none⟩).api_base = true ∧
      (initProvider ⟨some "http://x//", none, none, none, none, none, none⟩).api_base ++
          "/get_role_music" = "http://x//get_role_music" := by
  decide

/-- Claim C7 amended: construction strips exactly one trailing slash, so for
every configured `api_base` that does not end in two consecutive slashes the
stored base never ends in `/`. -/
theorem api_base_no_trailing_slash_amended (pc : ProviderConfig)
    (h : ¬(pyEndsWithSlash (pc.api_base.getD "http://127.0.0.1:50042") = true ∧
        pyEndsWithSlash (pyDropLastChar (pc.api_base.getD "http://127.0.0.1:50042")) = true)) :
    pyEndsWithSlash (initProvider pc).api_base = false := by
  show pyEndsWithSlash
      (if pyEndsWithSlash (pc.api_base.getD "http://127.0.0.1:50042") then
        pyDropLastChar (pc.api_base.getD "http://127.0.0.1:50042")
      else pc.api_base.getD "http://127.0.0.1:50042") = false
  by_cases hc : pyEndsWithSlash (pc.api_base.getD "http://127.0.0.1:50042") = true
  · rw [if_pos hc]
    rcases Bool.eq_false_or_eq_true
        (pyEndsWithSlash (pyDropLastChar (pc.api_base.getD "http://127.0.0.1:50042"))) with
      htr | hf
    · exact absurd ⟨hc, htr⟩ h
    · exact hf
  · rw [if_neg hc]
    exact Bool.not_eq_true _ |>.mp hc

theorem api_base_no_trailing_slash_amended_witness :
    (¬(pyEndsWithSlash ((some "http://x/").getD "http://127.0.0.1:50042") = true ∧
        pyEndsWithSlash (pyDropLastChar ((some "http://x/").getD "http://127.0.0.1:50042")) =
          true)) ∧
      pyEndsWithSlash
        (initProvider ⟨some "http://x/", none, none, none, none, none, none⟩).api_base = false :=
  ⟨by decide, api_base_no_trailing_slash_amended _ (by decide)⟩

/-- Claim C8: after construction the header map holds
`Content-Type: application/json` and the fixed user-agent, and holds
`Authorization: Bearer <apiKey>` exactly when the key is non-empty. -/
theorem headers_contract (pc : ProviderConfig) :
    (initProvider pc).headers.lookup "Content-Type" = some "application/json" ∧
      (initProvider pc).headers.lookup "User-Agent" = some "AstrBot-CustomTTS/1.0" ∧
      (initProvider pc).headers.lookup "Authorization" =
        (if (initProvider pc).api_key = "" then none
          else some ("Bearer " ++ (initProvider pc).api_key)) ∧
      (((initProvider pc).headers.lookup "Authorization").isSome ↔
        (initProvider pc).api_key ≠ "") := by
  have hkey : (initProvider pc).api_key = pc.api_key.getD "" := rfl
  have hhd : (initProvider pc).headers = mkHeaders (pc.api_key.getD "") := rfl
  rw [hkey, hhd]
  by_cases hk : pc.api_key.getD "" = ""
  · simp [mkHeaders, hk, List.lookup]
  · simp [mkHeaders, hk, List.lookup]

/-- Claim C10: when the configuration omits `api_base`, construction
defaults it to `http://127.0.0.1:50042`, and every POST attempted by
`get_audio` or `test_connection` targets
`http://127.0.0.1:50042/get_role_music`. -/
theorem default_api_base_endpoint (pc : ProviderConfig) (h : pc.api_base = none)
    (env : Env) (text : String) :
    (initProvider pc).api_base = "http://127.0.0.1:50042" ∧
      (∀ c ∈ (get_audio (initProvider pc) env text).netCalls,
        c.url = "http://127.0.0.1:50042/get_role_music") ∧
      (∀ net : NetOutcome, ∀ c ∈ (test_connection (initProvider pc) net).netCalls,
        c.url = "http://127.0.0.1:50042/get_role_music") := by
  have hf : pyEndsWithSlash "http://127.0.0.1:50042" = false := by decide
  have hbase : (initProvider pc).api_base = "http://127.0.0.1:50042" := by
    show (if pyEndsWithSlash (pc.api_base.getD "http://127.0.0.1:50042") then
        pyDropLastChar (pc.api_base.getD "http://127.0.0.1:50042")
      else pc.api_base.getD "http://127.0.0.1:50042") = "http://127.0.0.1:50042"
    rw [h]
    simp [hf]
  refine ⟨hbase, ?_, ?_⟩
  · obtain ⟨fs, dp, hex, net⟩ := env
    by_cases ht : pyStrip text = ""
    · simp [get_audio, ht]
    · cases net with
      | response status body btext =>
          by_cases hs : status = 200
          · subst hs
            by_cases hnz : 0 < body.length
            · simp [get_audio, ht, fsExistsFile, fsRead, fsWrite, fsGetSize, List.lookup,
                hnz, hbase]
            · simp [get_audio, ht, fsExistsFile, fsRead, fsWrite, fsGetSize, List.lookup,
                hnz, hbase]
          · simp [get_audio, ht, hs, hbase]
      | clientError c => simp [get_audio, ht, hbase]
      | timeoutError => simp [get_audio, ht, hbase]
      | otherError c => simp [get_audio, ht, hbase]
  · intro net
    cases net with
    | response status body btext => simp [test_connection, hbase]
    | clientError c => simp [test_connection, hbase]
    | timeoutError => simp [test_connection, hbase]
    | otherError c => simp [test_connection, hbase]

theorem default_api_base_endpoint_witness :
    (⟨none, none, none, none, none, none, none⟩ : ProviderConfig).api_base = none ∧
      ((initProvider ⟨none, none, none, none, none, none, none⟩).api_base =
          "http://127.0.0.1:50042" ∧
        (∀ c ∈ (get_audio (initProvider ⟨none, none, none, none, none, none, none⟩)
            ⟨[], "/data", "abcd", NetOutcome.response 200 [7] ""⟩ "hi").netCalls,
          c.url = "http://127.0.0.1:50042/get_role_music") ∧
        (∀ net : NetOutcome,
          ∀ c ∈ (test_connection (initProvider ⟨none, none, none, none, none, none, none⟩)
              net).netCalls,
            c.url = "http://127.0.0.1:50042/get_role_music")) :=
  ⟨rfl, default_api_base_endpoint _ rfl _ _⟩

end CustomTTS
